import Mathlib

/-!
Shallow embedding of the crossing-counter core of the repository
`Supervision-Line-Counter` (file `src/c_line_counter.py`, class `custom_LineZone`).

Coordinates are modelled as rationals (`ℚ`): the Python code computes anchor
points with an exact halving `(x1+x2)/2` and compares coordinates with `<=`,
all of which are exact on the inputs of interest.  Frame counters and counts
are naturals; the grace period is an integer, since the Python constructor
accepts any `int` (including negative ones) without validation.  The three
per-identity `dict`s are modelled as functions `Nat → Option _` (absent key =
`none`); `dict.get(k, d)` becomes `(m k).getD d` and `dict[k] = v` becomes
`Function.update m k (some v)`.
-/

/-- `supervision.geometry.core.Point`: a 2-D point in pixel space. -/
structure SvPoint where
  x : ℚ
  y : ℚ
deriving DecidableEq

/-- `supervision.geometry.core.Vector`: an oriented segment.  `end` is a Lean
keyword, so the field is called `end_`. -/
structure SvVector where
  start : SvPoint
  end_ : SvPoint
deriving DecidableEq

/-- Modelled from the spec: `supervision.geometry.core.Vector.is_in`, the
external library's half-plane side test used at `c_line_counter.py:57`.  Per
spec §4 it is "the sign of the cross product of the line's direction vector and
the vector from the line start to the anchor point; a result of exactly zero is
treated as a fixed canonical side, e.g. `false`" — i.e. it returns
`cross_product < 0`. -/
def SvVector.is_in (v : SvVector) (point : SvPoint) : Bool :=
  (v.end_.x - v.start.x) * (point.y - v.start.y)
    - (v.end_.y - v.start.y) * (point.x - v.start.x) < 0

/-- The configuration dictionary; `trigger` only reads `config["ANCHOR_POINT"]`
(`c_line_counter.py:49`). -/
structure Config where
  anchor_point : String

/-- One detection as unpacked by the loop header
`for xyxy, _, confidence, class_id, tracker_id in detections`
(`c_line_counter.py:42`).  The mask, confidence and class id are never used by
`trigger`, so only the box `xyxy = (x1, y1, x2, y2)` and the optional
`tracker_id` are carried. -/
structure Detection where
  x1 : ℚ
  y1 : ℚ
  x2 : ℚ
  y2 : ℚ
  tracker_id : Option Nat

/-- The mutable state of `custom_LineZone` as set up by `__init__`
(`c_line_counter.py:11-21`). -/
structure custom_LineZone where
  config : Config
  name : String
  vector : SvVector
  tracker_state : Nat → Option Bool
  already_counted : Nat → Option Bool
  frame_last_seen : Nat → Option Nat
  current_frame : Nat
  in_count : Nat
  out_count : Nat
  grace_period : Int

/-- `custom_LineZone.__init__` (`c_line_counter.py:11-21`).  Note that it
performs no validation whatsoever: any start/end pair (including `start = end_`)
and any grace period (including negative ones) are accepted, and the three
per-identity dicts start empty with both counters at `0`. -/
def custom_LineZone.init (config : Config) (name : String) (start end_ : SvPoint)
    (grace_period : Int) : custom_LineZone :=
  { config := config
    name := name
    vector := { start := start, end_ := end_ }
    tracker_state := fun _ => none
    already_counted := fun _ => none
    frame_last_seen := fun _ => none
    current_frame := 0
    in_count := 0
    out_count := 0
    grace_period := grace_period }

/-- `custom_LineZone.is_within_line_segment` (`c_line_counter.py:22-36`):
the anchor must lie in the bounding extent of the segment's endpoints expanded
by `margin` in all directions. -/
def custom_LineZone.is_within_line_segment (self : custom_LineZone)
    (point : SvPoint) (margin : ℚ) : Bool :=
  let x_within := decide
    (min self.vector.start.x self.vector.end_.x - margin ≤ point.x
      ∧ point.x ≤ max self.vector.start.x self.vector.end_.x + margin)
  let y_within := decide
    (min self.vector.start.y self.vector.end_.y - margin ≤ point.y
      ∧ point.y ≤ max self.vector.start.y self.vector.end_.y + margin)
  x_within && y_within

/-- The anchor-point computation of the loop body (`c_line_counter.py:48-52`):
box centroid when `config["ANCHOR_POINT"] == "center"`, bottom-center
otherwise. -/
def custom_LineZone.anchor (self : custom_LineZone) (d : Detection) : SvPoint :=
  if self.config.anchor_point = "center" then
    { x := (d.x1 + d.x2) / 2, y := (d.y1 + d.y2) / 2 }
  else
    { x := (d.x1 + d.x2) / 2, y := d.y2 }

/-- The body of the `for` loop of `custom_LineZone.trigger`
(`c_line_counter.py:42-85`), processing a single detection.  `continue`
becomes returning `self` unchanged.  In the grace-period branch the source
first sets `already_counted[id] = False` and then falls through to the counting
block which immediately sets it to `True`; the net effect (counting) is encoded
directly. -/
def custom_LineZone.processDetection (self : custom_LineZone) (d : Detection) :
    custom_LineZone :=
  match d.tracker_id with
  | none => self
  | some tracker_id =>
    let anchor := self.anchor d
    if ¬ self.is_within_line_segment anchor 20 then self
    else
      let side := self.vector.is_in anchor
      match self.tracker_state tracker_id with
      | none =>
        -- handle new detection (`c_line_counter.py:60-64`)
        { self with
          tracker_state := Function.update self.tracker_state tracker_id (some side)
          already_counted := Function.update self.already_counted tracker_id (some false)
          frame_last_seen := Function.update self.frame_last_seen tracker_id
            (some self.current_frame) }
      | some prev =>
        -- same side: bare `continue`, no state update (`c_line_counter.py:66-68`)
        if prev = side then self
        else
          -- already-counted check (`c_line_counter.py:71-76`); in the grace
          -- branch the source sets `already_counted[id] = False` and falls
          -- through to the counting block, which immediately sets it back to
          -- `True`, so the counting block is written out in both places
          if (self.already_counted tracker_id).getD false then
            if (self.current_frame : Int) - ((self.frame_last_seen tracker_id).getD 0 : Int)
                > self.grace_period then
              { self with
                tracker_state := Function.update self.tracker_state tracker_id (some side)
                already_counted := Function.update self.already_counted tracker_id (some true)
                frame_last_seen := Function.update self.frame_last_seen tracker_id
                  (some self.current_frame)
                in_count := if side then self.in_count + 1 else self.in_count
                out_count := if side then self.out_count else self.out_count + 1 }
            -- still within the grace period: bare `continue`, no state update
            else self
          -- count the crossing (`c_line_counter.py:78-85`)
          else
            { self with
              tracker_state := Function.update self.tracker_state tracker_id (some side)
              already_counted := Function.update self.already_counted tracker_id (some true)
              frame_last_seen := Function.update self.frame_last_seen tracker_id
                (some self.current_frame)
              in_count := if side then self.in_count + 1 else self.in_count
              out_count := if side then self.out_count else self.out_count + 1 }

/-- `custom_LineZone.trigger` (`c_line_counter.py:39-85`): increment the frame
counter, then process each detection in order. -/
def custom_LineZone.trigger (self : custom_LineZone) (detections : List Detection) :
    custom_LineZone :=
  (detections.foldl custom_LineZone.processDetection
    { self with current_frame := self.current_frame + 1 })

/-- A whole run: one `trigger` call per frame, in frame order. -/
def custom_LineZone.run (self : custom_LineZone) (frames : List (List Detection)) :
    custom_LineZone :=
  frames.foldl custom_LineZone.trigger self

/-- Concrete counter on a vertical line from (100,0) to (100,200), used by the
concrete scenarios below. -/
def zV : custom_LineZone :=
  custom_LineZone.init { anchor_point := "bottom_center" } "L"
    { x := 100, y := 0 } { x := 100, y := 200 } 60

/-- A detection of identity `i` whose bottom-center anchor is `(x, 100)`. -/
def detAt (i : Nat) (x : ℚ) : Detection :=
  { x1 := x - 10, y1 := 60, x2 := x + 10, y2 := 100, tracker_id := some i }

/-!
## Proof scaffolding: normal form of the loop body, invariant predicates,
concrete scenario states

`processDetection` either leaves the state unchanged, creates a fresh record,
or tallies a crossing.  The normal form below is proof scaffolding only; the
executable embedding above is `processDetection` itself.
-/

/-- The three possible effects of the loop body on the state. -/
inductive PdAction where
  | skip
  | create (side : Bool)
  | tally (side : Bool)

/-- Apply one loop-body effect for identity `i`. -/
def custom_LineZone.applyAction (z : custom_LineZone) (i : Nat) :
    PdAction → custom_LineZone
  | .skip => z
  | .create side =>
    { z with
      tracker_state := Function.update z.tracker_state i (some side)
      already_counted := Function.update z.already_counted i (some false)
      frame_last_seen := Function.update z.frame_last_seen i (some z.current_frame) }
  | .tally side =>
    { z with
      tracker_state := Function.update z.tracker_state i (some side)
      already_counted := Function.update z.already_counted i (some true)
      frame_last_seen := Function.update z.frame_last_seen i (some z.current_frame)
      in_count := if side then z.in_count + 1 else z.in_count
      out_count := if side then z.out_count else z.out_count + 1 }

/-- Which effect the loop body has on a detection carrying identity `i`,
mirroring the branch structure of `processDetection`. -/
def custom_LineZone.pdAction (z : custom_LineZone) (d : Detection) (i : Nat) :
    PdAction :=
  let anchor := z.anchor d
  if ¬ z.is_within_line_segment anchor 20 then .skip
  else
    let side := z.vector.is_in anchor
    match z.tracker_state i with
    | none => .create side
    | some prev =>
      if prev = side then .skip
      else
        if (z.already_counted i).getD false then
          if (z.current_frame : Int) - ((z.frame_last_seen i).getD 0 : Int)
              > z.grace_period then
            .tally side
          else .skip
        else .tally side

/-- Two detections are id-compatible when they cannot carry the same tracker
identity (detections without an identity are compatible with everything). -/
def DistinctIds (d1 d2 : Detection) : Prop :=
  ∀ i j, d1.tracker_id = some i → d2.tracker_id = some j → i ≠ j

/-- The three per-identity dicts have the same key set. -/
def Aligned (z : custom_LineZone) : Prop :=
  ∀ i, (z.tracker_state i).isSome = (z.already_counted i).isSome
    ∧ (z.tracker_state i).isSome = (z.frame_last_seen i).isSome

/-- All recorded sides are the canonical `false` side. -/
def SidesFalse (z : custom_LineZone) : Prop :=
  ∀ i s, z.tracker_state i = some s → s = false

/-- The oscillation input of spec §8: `n` one-detection frames for a single
identity whose anchor alternates between the two sides every frame —
frame `k+1` (1-based) shows `dA` when `k` is even and `dB` when `k` is odd. -/
def oscFrames (dA dB : Detection) (n : Nat) : List (List Detection) :=
  (List.range n).map (fun k => [if k % 2 = 0 then dA else dB])

/-- `zV` after identity 3 was sighted (frame 1) on the `false` side. -/
def zS1 : custom_LineZone :=
  { zV with
    current_frame := 1
    tracker_state := Function.update zV.tracker_state 3 (some false)
    already_counted := Function.update zV.already_counted 3 (some false)
    frame_last_seen := Function.update zV.frame_last_seen 3 (some 1) }

/-- `zS1` after a same-side re-sighting (frame 2): only the frame counter
moves. -/
def zS2 : custom_LineZone := { zS1 with current_frame := 2 }

/-- `zS2` after identity 3 crossed to the `true` side (frame 3, counted). -/
def zS3 : custom_LineZone :=
  { zS2 with
    current_frame := 3
    tracker_state := Function.update zS2.tracker_state 3 (some true)
    already_counted := Function.update zS2.already_counted 3 (some true)
    frame_last_seen := Function.update zS2.frame_last_seen 3 (some 3)
    in_count := zS2.in_count + 1 }

/-- A counter whose identity 1 was counted on the `false` side at frame 3 and
whose frame counter has advanced to 62, so that the next call runs at frame 63
— exactly `gracePeriod = 60` frames after `lastSeenFrame`. -/
def zG : custom_LineZone :=
  { zV with
    current_frame := 62
    tracker_state := Function.update zV.tracker_state 1 (some false)
    already_counted := Function.update zV.already_counted 1 (some true)
    frame_last_seen := Function.update zV.frame_last_seen 1 (some 3) }

/-- `zG` one frame later: the next call runs at frame 64 —
`gracePeriod + 1 = 61` frames after `lastSeenFrame`. -/
def zG2 : custom_LineZone := { zG with current_frame := 63 }

/-- `zV` after frame 1 of the two-identity scenario: identity 1 on the `false`
side. -/
def zQ1 : custom_LineZone :=
  { zV with
    current_frame := 1
    tracker_state := Function.update zV.tracker_state 1 (some false)
    already_counted := Function.update zV.already_counted 1 (some false)
    frame_last_seen := Function.update zV.frame_last_seen 1 (some 1) }

/-- `zQ1` with identity 2 also sighted (frame 1) on the `true` side. -/
def zQ2 : custom_LineZone :=
  { zQ1 with
    tracker_state := Function.update zQ1.tracker_state 2 (some true)
    already_counted := Function.update zQ1.already_counted 2 (some false)
    frame_last_seen := Function.update zQ1.frame_last_seen 2 (some 1) }

/-- `zQ2` after identity 1 crossed to the `true` side in frame 2 (in-count). -/
def zQ3 : custom_LineZone :=
  { zQ2 with
    current_frame := 2
    tracker_state := Function.update zQ2.tracker_state 1 (some true)
    already_counted := Function.update zQ2.already_counted 1 (some true)
    frame_last_seen := Function.update zQ2.frame_last_seen 1 (some 2)
    in_count := zQ2.in_count + 1 }

/-- `zQ3` after identity 2 crossed to the `false` side in frame 2 (out-count). -/
def zQ4 : custom_LineZone :=
  { zQ3 with
    tracker_state := Function.update zQ3.tracker_state 2 (some false)
    already_counted := Function.update zQ3.already_counted 2 (some true)
    frame_last_seen := Function.update zQ3.frame_last_seen 2 (some 2)
    out_count := zQ3.out_count + 1 }

/-- `zV` after a frame-1 sighting of identity 7 on the `false` side (x=90
processed first). -/
def zB1 : custom_LineZone :=
  { zV with
    current_frame := 1
    tracker_state := Function.update zV.tracker_state 7 (some false)
    already_counted := Function.update zV.already_counted 7 (some false)
    frame_last_seen := Function.update zV.frame_last_seen 7 (some 1) }

/-- `zV` after a frame-1 sighting of identity 7 on the `true` side (x=110
processed first). -/
def zB2 : custom_LineZone :=
  { zV with
    current_frame := 1
    tracker_state := Function.update zV.tracker_state 7 (some true)
    already_counted := Function.update zV.already_counted 7 (some false)
    frame_last_seen := Function.update zV.frame_last_seen 7 (some 1) }

/-!
## Step lemmas

One lemma per branch of the `for`-loop body of `trigger`, characterising the
state after processing a single detection.
-/

theorem pd_none (z : custom_LineZone) (d : Detection) (h : d.tracker_id = none) :
    z.processDetection d = z := by
  unfold custom_LineZone.processDetection
  rw [h]

theorem pd_invalid (z : custom_LineZone) (d : Detection) (i : Nat)
    (hid : d.tracker_id = some i)
    (hv : z.is_within_line_segment (z.anchor d) 20 = false) :
    z.processDetection d = z := by
  unfold custom_LineZone.processDetection
  rw [hid]
  simp [hv]

theorem pd_create (z : custom_LineZone) (d : Detection) (i : Nat)
    (hid : d.tracker_id = some i)
    (hv : z.is_within_line_segment (z.anchor d) 20 = true)
    (hfresh : z.tracker_state i = none) :
    z.processDetection d =
      { z with
        tracker_state := Function.update z.tracker_state i
          (some (z.vector.is_in (z.anchor d)))
        already_counted := Function.update z.already_counted i (some false)
        frame_last_seen := Function.update z.frame_last_seen i
          (some z.current_frame) } := by
  unfold custom_LineZone.processDetection
  rw [hid]
  simp [hv, hfresh]

theorem pd_same (z : custom_LineZone) (d : Detection) (i : Nat) (s : Bool)
    (hid : d.tracker_id = some i)
    (hstate : z.tracker_state i = some s)
    (hside : z.vector.is_in (z.anchor d) = s) :
    z.processDetection d = z := by
  unfold custom_LineZone.processDetection
  rw [hid]
  by_cases hv : z.is_within_line_segment (z.anchor d) 20 = true
  · simp [hv, hstate, hside]
  · rw [Bool.not_eq_true] at hv
    simp [hv]

theorem pd_suppressed (z : custom_LineZone) (d : Detection) (i : Nat) (s : Bool)
    (hid : d.tracker_id = some i)
    (hstate : z.tracker_state i = some s)
    (hside : z.vector.is_in (z.anchor d) ≠ s)
    (hc : (z.already_counted i).getD false = true)
    (hgap : ¬ ((z.current_frame : Int) - ((z.frame_last_seen i).getD 0 : Int)
        > z.grace_period)) :
    z.processDetection d = z := by
  unfold custom_LineZone.processDetection
  rw [hid]
  by_cases hv : z.is_within_line_segment (z.anchor d) 20 = true
  · simp only [hv, hstate]
    simp [Ne.symm hside, hc, hgap]
  · rw [Bool.not_eq_true] at hv
    simp [hv]

theorem pd_count (z : custom_LineZone) (d : Detection) (i : Nat) (s : Bool)
    (hid : d.tracker_id = some i)
    (hv : z.is_within_line_segment (z.anchor d) 20 = true)
    (hstate : z.tracker_state i = some s)
    (hside : z.vector.is_in (z.anchor d) ≠ s)
    (hready : (z.already_counted i).getD false = false
      ∨ (z.current_frame : Int) - ((z.frame_last_seen i).getD 0 : Int)
          > z.grace_period) :
    z.processDetection d =
      { z with
        tracker_state := Function.update z.tracker_state i
          (some (z.vector.is_in (z.anchor d)))
        already_counted := Function.update z.already_counted i (some true)
        frame_last_seen := Function.update z.frame_last_seen i
          (some z.current_frame)
        in_count := if z.vector.is_in (z.anchor d) then z.in_count + 1 else z.in_count
        out_count := if z.vector.is_in (z.anchor d) then z.out_count
          else z.out_count + 1 } := by
  unfold custom_LineZone.processDetection
  rw [hid]
  rcases hready with hr | hr
  · simp only [hv, hstate]
    simp [Ne.symm hside, hr]
  · by_cases hc : (z.already_counted i).getD false = true
    · simp only [hv, hstate]
      simp [Ne.symm hside, hc, hr]
    · rw [Bool.not_eq_true] at hc
      simp only [hv, hstate]
      simp [Ne.symm hside, hc]

theorem not_center : ("bottom_center" = "center") = False :=
  eq_false (by decide)

theorem update_self {β : Type} (f : ℕ → β) (a : ℕ) (v : β) :
    Function.update f a v a = v := Function.update_same a v f

theorem update_other {β : Type} (f : ℕ → β) (a b : ℕ) (v : β) (h : b ≠ a) :
    Function.update f a v b = f b := Function.update_noteq h v f

theorem trigger_singleton (z : custom_LineZone) (d : Detection) :
    z.trigger [d] =
      ({ z with current_frame := z.current_frame + 1 } : custom_LineZone).processDetection d :=
  rfl

theorem trigger_pair (z : custom_LineZone) (d1 d2 : Detection) :
    z.trigger [d1, d2] =
      (({ z with current_frame := z.current_frame + 1 } : custom_LineZone).processDetection
        d1).processDetection d2 :=
  rfl

theorem pd_eq_applyAction (z : custom_LineZone) (d : Detection) (i : Nat)
    (hid : d.tracker_id = some i) :
    z.processDetection d = z.applyAction i (z.pdAction d i) := by
  unfold custom_LineZone.processDetection custom_LineZone.pdAction
  rw [hid]
  by_cases hv : z.is_within_line_segment (z.anchor d) 20 = true
  · cases hstate : z.tracker_state i with
    | none => simp [hv, hstate, custom_LineZone.applyAction]
    | some prev =>
      by_cases hps : prev = z.vector.is_in (z.anchor d)
      · simp [hv, hstate, hps, custom_LineZone.applyAction]
      · by_cases hc : (z.already_counted i).getD false = true
        · by_cases hg : (z.current_frame : Int) - ((z.frame_last_seen i).getD 0 : Int)
              > z.grace_period
          · simp [hv, hstate, hps, hc, hg, custom_LineZone.applyAction]
          · simp [hv, hstate, hps, hc, hg, custom_LineZone.applyAction]
        · rw [Bool.not_eq_true] at hc
          simp [hv, hstate, hps, hc, custom_LineZone.applyAction]
  · rw [Bool.not_eq_true] at hv
    simp [hv, custom_LineZone.applyAction]

theorem anchor_congr (z w : custom_LineZone) (d : Detection)
    (hcfg : w.config = z.config) : w.anchor d = z.anchor d := by
  unfold custom_LineZone.anchor
  rw [hcfg]

theorem is_within_congr (z w : custom_LineZone) (p : SvPoint) (m : ℚ)
    (hvec : w.vector = z.vector) :
    w.is_within_line_segment p m = z.is_within_line_segment p m := by
  unfold custom_LineZone.is_within_line_segment
  rw [hvec]

theorem pdAction_congr (z w : custom_LineZone) (d : Detection) (i : Nat)
    (hvec : w.vector = z.vector) (hcfg : w.config = z.config)
    (hgr : w.grace_period = z.grace_period) (hcf : w.current_frame = z.current_frame)
    (hts : w.tracker_state i = z.tracker_state i)
    (hac : w.already_counted i = z.already_counted i)
    (hfs : w.frame_last_seen i = z.frame_last_seen i) :
    w.pdAction d i = z.pdAction d i := by
  have ha := anchor_congr z w d hcfg
  have hw : ∀ p m, w.is_within_line_segment p m = z.is_within_line_segment p m :=
    fun p m => is_within_congr z w p m hvec
  simp only [custom_LineZone.pdAction, ha, hw, hvec, hts, hac, hfs, hgr, hcf]

theorem applyAction_vector (z : custom_LineZone) (i : Nat) (a : PdAction) :
    (z.applyAction i a).vector = z.vector := by cases a <;> rfl

theorem applyAction_config (z : custom_LineZone) (i : Nat) (a : PdAction) :
    (z.applyAction i a).config = z.config := by cases a <;> rfl

theorem applyAction_grace (z : custom_LineZone) (i : Nat) (a : PdAction) :
    (z.applyAction i a).grace_period = z.grace_period := by cases a <;> rfl

theorem applyAction_frame (z : custom_LineZone) (i : Nat) (a : PdAction) :
    (z.applyAction i a).current_frame = z.current_frame := by cases a <;> rfl

theorem applyAction_tracker_state_other (z : custom_LineZone) (i j : Nat)
    (a : PdAction) (h : j ≠ i) :
    (z.applyAction i a).tracker_state j = z.tracker_state j := by
  cases a <;> simp [custom_LineZone.applyAction, Function.update_noteq h]

theorem applyAction_already_counted_other (z : custom_LineZone) (i j : Nat)
    (a : PdAction) (h : j ≠ i) :
    (z.applyAction i a).already_counted j = z.already_counted j := by
  cases a <;> simp [custom_LineZone.applyAction, Function.update_noteq h]

theorem applyAction_frame_last_seen_other (z : custom_LineZone) (i j : Nat)
    (a : PdAction) (h : j ≠ i) :
    (z.applyAction i a).frame_last_seen j = z.frame_last_seen j := by
  cases a <;> simp [custom_LineZone.applyAction, Function.update_noteq h]

theorem applyAction_comm (z : custom_LineZone) (i j : Nat) (a b : PdAction)
    (hij : i ≠ j) :
    (z.applyAction i a).applyAction j b = (z.applyAction j b).applyAction i a := by
  cases a with
  | skip => rfl
  | create sa =>
    cases b with
    | skip => rfl
    | create sb => simp [custom_LineZone.applyAction, Function.update_comm hij]
    | tally sb => simp [custom_LineZone.applyAction, Function.update_comm hij]
  | tally sa =>
    cases b with
    | skip => rfl
    | create sb => simp [custom_LineZone.applyAction, Function.update_comm hij]
    | tally sb =>
      cases sa <;> cases sb <;>
        simp [custom_LineZone.applyAction, Function.update_comm hij]

/-!
## Field preservation, monotonicity, alignment, commutation
-/

theorem pd_vector (z : custom_LineZone) (d : Detection) :
    (z.processDetection d).vector = z.vector := by
  cases hid : d.tracker_id with
  | none => rw [pd_none z d hid]
  | some i => rw [pd_eq_applyAction z d i hid, applyAction_vector]

theorem pd_config (z : custom_LineZone) (d : Detection) :
    (z.processDetection d).config = z.config := by
  cases hid : d.tracker_id with
  | none => rw [pd_none z d hid]
  | some i => rw [pd_eq_applyAction z d i hid, applyAction_config]

theorem pd_grace (z : custom_LineZone) (d : Detection) :
    (z.processDetection d).grace_period = z.grace_period := by
  cases hid : d.tracker_id with
  | none => rw [pd_none z d hid]
  | some i => rw [pd_eq_applyAction z d i hid, applyAction_grace]

theorem pd_frame (z : custom_LineZone) (d : Detection) :
    (z.processDetection d).current_frame = z.current_frame := by
  cases hid : d.tracker_id with
  | none => rw [pd_none z d hid]
  | some i => rw [pd_eq_applyAction z d i hid, applyAction_frame]

theorem applyAction_in_le (z : custom_LineZone) (i : Nat) (a : PdAction) :
    z.in_count ≤ (z.applyAction i a).in_count := by
  cases a <;> simp only [custom_LineZone.applyAction] <;> try rfl
  split <;> omega

theorem applyAction_out_le (z : custom_LineZone) (i : Nat) (a : PdAction) :
    z.out_count ≤ (z.applyAction i a).out_count := by
  cases a <;> simp only [custom_LineZone.applyAction] <;> try rfl
  split <;> omega

theorem pd_in_le (z : custom_LineZone) (d : Detection) :
    z.in_count ≤ (z.processDetection d).in_count := by
  cases hid : d.tracker_id with
  | none => rw [pd_none z d hid]
  | some i => rw [pd_eq_applyAction z d i hid]; exact applyAction_in_le z i _

theorem pd_out_le (z : custom_LineZone) (d : Detection) :
    z.out_count ≤ (z.processDetection d).out_count := by
  cases hid : d.tracker_id with
  | none => rw [pd_none z d hid]
  | some i => rw [pd_eq_applyAction z d i hid]; exact applyAction_out_le z i _

theorem foldl_pd_in_le (ds : List Detection) :
    ∀ z : custom_LineZone,
      z.in_count ≤ (ds.foldl custom_LineZone.processDetection z).in_count := by
  induction ds with
  | nil => intro z; exact le_refl _
  | cons d ds ih =>
    intro z
    exact le_trans (pd_in_le z d) (ih (z.processDetection d))

theorem foldl_pd_out_le (ds : List Detection) :
    ∀ z : custom_LineZone,
      z.out_count ≤ (ds.foldl custom_LineZone.processDetection z).out_count := by
  induction ds with
  | nil => intro z; exact le_refl _
  | cons d ds ih =>
    intro z
    exact le_trans (pd_out_le z d) (ih (z.processDetection d))

theorem distinctIds_symm : ∀ {d1 d2 : Detection},
    DistinctIds d1 d2 → DistinctIds d2 d1 :=
  fun h i j h2 h1 => (h j i h1 h2).symm

theorem pd_comm (z : custom_LineZone) (d1 d2 : Detection)
    (h : DistinctIds d1 d2) :
    (z.processDetection d1).processDetection d2
      = (z.processDetection d2).processDetection d1 := by
  cases h1 : d1.tracker_id with
  | none => rw [pd_none z d1 h1, pd_none (z.processDetection d2) d1 h1]
  | some i =>
    cases h2 : d2.tracker_id with
    | none => rw [pd_none z d2 h2, pd_none (z.processDetection d1) d2 h2]
    | some j =>
      have hij : i ≠ j := h i j h1 h2
      rw [pd_eq_applyAction z d1 i h1, pd_eq_applyAction z d2 j h2,
        pd_eq_applyAction _ d2 j h2, pd_eq_applyAction _ d1 i h1,
        pdAction_congr z (z.applyAction i (z.pdAction d1 i)) d2 j
          (applyAction_vector z i _) (applyAction_config z i _)
          (applyAction_grace z i _) (applyAction_frame z i _)
          (applyAction_tracker_state_other z i j _ hij.symm)
          (applyAction_already_counted_other z i j _ hij.symm)
          (applyAction_frame_last_seen_other z i j _ hij.symm),
        pdAction_congr z (z.applyAction j (z.pdAction d2 j)) d1 i
          (applyAction_vector z j _) (applyAction_config z j _)
          (applyAction_grace z j _) (applyAction_frame z j _)
          (applyAction_tracker_state_other z j i _ hij)
          (applyAction_already_counted_other z j i _ hij)
          (applyAction_frame_last_seen_other z j i _ hij),
        applyAction_comm z i j _ _ hij]

theorem foldl_pd_perm {ds1 ds2 : List Detection} (hperm : ds1.Perm ds2) :
    ds1.Pairwise DistinctIds →
    ∀ z : custom_LineZone,
      ds1.foldl custom_LineZone.processDetection z
        = ds2.foldl custom_LineZone.processDetection z := by
  induction hperm with
  | nil => intro _ z; rfl
  | cons x h ih =>
    intro hdist z
    simp only [List.foldl_cons]
    exact ih hdist.of_cons (z.processDetection x)
  | swap x y l =>
    intro hdist z
    simp only [List.foldl_cons]
    rw [pd_comm z y x ((List.pairwise_cons.mp hdist).1 x (by simp))]
  | trans h12 h23 ih12 ih23 =>
    intro hdist z
    rw [ih12 hdist z,
      ih23 ((h12.pairwise_iff (fun h => distinctIds_symm h)).mp hdist) z]

theorem foldl_pd_vector (ds : List Detection) :
    ∀ z : custom_LineZone,
      (ds.foldl custom_LineZone.processDetection z).vector = z.vector := by
  induction ds with
  | nil => intro z; rfl
  | cons d ds ih => intro z; rw [List.foldl_cons, ih, pd_vector]

theorem foldl_pd_config (ds : List Detection) :
    ∀ z : custom_LineZone,
      (ds.foldl custom_LineZone.processDetection z).config = z.config := by
  induction ds with
  | nil => intro z; rfl
  | cons d ds ih => intro z; rw [List.foldl_cons, ih, pd_config]

theorem foldl_pd_grace (ds : List Detection) :
    ∀ z : custom_LineZone,
      (ds.foldl custom_LineZone.processDetection z).grace_period = z.grace_period := by
  induction ds with
  | nil => intro z; rfl
  | cons d ds ih => intro z; rw [List.foldl_cons, ih, pd_grace]

theorem foldl_pd_frame (ds : List Detection) :
    ∀ z : custom_LineZone,
      (ds.foldl custom_LineZone.processDetection z).current_frame = z.current_frame := by
  induction ds with
  | nil => intro z; rfl
  | cons d ds ih => intro z; rw [List.foldl_cons, ih, pd_frame]

theorem trigger_vector (z : custom_LineZone) (ds : List Detection) :
    (z.trigger ds).vector = z.vector := by
  unfold custom_LineZone.trigger
  rw [foldl_pd_vector]

theorem trigger_config (z : custom_LineZone) (ds : List Detection) :
    (z.trigger ds).config = z.config := by
  unfold custom_LineZone.trigger
  rw [foldl_pd_config]

theorem trigger_grace (z : custom_LineZone) (ds : List Detection) :
    (z.trigger ds).grace_period = z.grace_period := by
  unfold custom_LineZone.trigger
  rw [foldl_pd_grace]

theorem trigger_frame (z : custom_LineZone) (ds : List Detection) :
    (z.trigger ds).current_frame = z.current_frame + 1 := by
  unfold custom_LineZone.trigger
  rw [foldl_pd_frame]

/-!
## Alignment and persistence of the three per-identity maps
-/

theorem applyAction_aligned (z : custom_LineZone) (i : Nat) (a : PdAction)
    (h : Aligned z) : Aligned (z.applyAction i a) := by
  intro k
  by_cases hk : k = i
  · subst hk
    cases a with
    | skip => exact h k
    | create s => simp [custom_LineZone.applyAction, Function.update_same]
    | tally s => simp [custom_LineZone.applyAction, Function.update_same]
  · rw [applyAction_tracker_state_other z i k a hk,
      applyAction_already_counted_other z i k a hk,
      applyAction_frame_last_seen_other z i k a hk]
    exact h k

theorem pd_aligned (z : custom_LineZone) (d : Detection) (h : Aligned z) :
    Aligned (z.processDetection d) := by
  cases hid : d.tracker_id with
  | none => rw [pd_none z d hid]; exact h
  | some i => rw [pd_eq_applyAction z d i hid]; exact applyAction_aligned z i _ h

theorem foldl_pd_aligned (ds : List Detection) :
    ∀ z : custom_LineZone, Aligned z →
      Aligned (ds.foldl custom_LineZone.processDetection z) := by
  induction ds with
  | nil => intro z h; exact h
  | cons d ds ih => intro z h; exact ih (z.processDetection d) (pd_aligned z d h)

theorem trigger_aligned (z : custom_LineZone) (ds : List Detection)
    (h : Aligned z) : Aligned (z.trigger ds) := by
  unfold custom_LineZone.trigger
  exact foldl_pd_aligned ds _ (fun i => h i)

theorem run_aligned (frames : List (List Detection)) :
    ∀ z : custom_LineZone, Aligned z → Aligned (z.run frames) := by
  induction frames with
  | nil => intro z h; exact h
  | cons f fs ih => intro z h; exact ih (z.trigger f) (trigger_aligned z f h)

theorem init_aligned (config : Config) (name : String) (start end_ : SvPoint)
    (g : Int) : Aligned (custom_LineZone.init config name start end_ g) := by
  intro i
  exact ⟨rfl, rfl⟩

theorem applyAction_isSome_tracker (z : custom_LineZone) (i k : Nat) (a : PdAction)
    (h : (z.tracker_state k).isSome = true) :
    ((z.applyAction i a).tracker_state k).isSome = true := by
  by_cases hk : k = i
  · subst hk
    cases a with
    | skip => exact h
    | create s => simp [custom_LineZone.applyAction, Function.update_same]
    | tally s => simp [custom_LineZone.applyAction, Function.update_same]
  · rw [applyAction_tracker_state_other z i k a hk]; exact h

theorem applyAction_isSome_counted (z : custom_LineZone) (i k : Nat) (a : PdAction)
    (h : (z.already_counted k).isSome = true) :
    ((z.applyAction i a).already_counted k).isSome = true := by
  by_cases hk : k = i
  · subst hk
    cases a with
    | skip => exact h
    | create s => simp [custom_LineZone.applyAction, Function.update_same]
    | tally s => simp [custom_LineZone.applyAction, Function.update_same]
  · rw [applyAction_already_counted_other z i k a hk]; exact h

theorem applyAction_isSome_seen (z : custom_LineZone) (i k : Nat) (a : PdAction)
    (h : (z.frame_last_seen k).isSome = true) :
    ((z.applyAction i a).frame_last_seen k).isSome = true := by
  by_cases hk : k = i
  · subst hk
    cases a with
    | skip => exact h
    | create s => simp [custom_LineZone.applyAction, Function.update_same]
    | tally s => simp [custom_LineZone.applyAction, Function.update_same]
  · rw [applyAction_frame_last_seen_other z i k a hk]; exact h

theorem pd_isSome_tracker (z : custom_LineZone) (d : Detection) (k : Nat)
    (h : (z.tracker_state k).isSome = true) :
    ((z.processDetection d).tracker_state k).isSome = true := by
  cases hid : d.tracker_id with
  | none => rw [pd_none z d hid]; exact h
  | some i => rw [pd_eq_applyAction z d i hid]; exact applyAction_isSome_tracker z i k _ h

theorem pd_isSome_counted (z : custom_LineZone) (d : Detection) (k : Nat)
    (h : (z.already_counted k).isSome = true) :
    ((z.processDetection d).already_counted k).isSome = true := by
  cases hid : d.tracker_id with
  | none => rw [pd_none z d hid]; exact h
  | some i => rw [pd_eq_applyAction z d i hid]; exact applyAction_isSome_counted z i k _ h

theorem pd_isSome_seen (z : custom_LineZone) (d : Detection) (k : Nat)
    (h : (z.frame_last_seen k).isSome = true) :
    ((z.processDetection d).frame_last_seen k).isSome = true := by
  cases hid : d.tracker_id with
  | none => rw [pd_none z d hid]; exact h
  | some i => rw [pd_eq_applyAction z d i hid]; exact applyAction_isSome_seen z i k _ h

theorem foldl_pd_isSome_tracker (ds : List Detection) :
    ∀ (z : custom_LineZone) (k : Nat), (z.tracker_state k).isSome = true →
      ((ds.foldl custom_LineZone.processDetection z).tracker_state k).isSome = true := by
  induction ds with
  | nil => intro z k h; exact h
  | cons d ds ih =>
    intro z k h
    exact ih (z.processDetection d) k (pd_isSome_tracker z d k h)

theorem foldl_pd_isSome_counted (ds : List Detection) :
    ∀ (z : custom_LineZone) (k : Nat), (z.already_counted k).isSome = true →
      ((ds.foldl custom_LineZone.processDetection z).already_counted k).isSome = true := by
  induction ds with
  | nil => intro z k h; exact h
  | cons d ds ih =>
    intro z k h
    exact ih (z.processDetection d) k (pd_isSome_counted z d k h)

theorem foldl_pd_isSome_seen (ds : List Detection) :
    ∀ (z : custom_LineZone) (k : Nat), (z.frame_last_seen k).isSome = true →
      ((ds.foldl custom_LineZone.processDetection z).frame_last_seen k).isSome = true := by
  induction ds with
  | nil => intro z k h; exact h
  | cons d ds ih =>
    intro z k h
    exact ih (z.processDetection d) k (pd_isSome_seen z d k h)

theorem trigger_isSome_tracker (z : custom_LineZone) (ds : List Detection) (k : Nat)
    (h : (z.tracker_state k).isSome = true) :
    ((z.trigger ds).tracker_state k).isSome = true :=
  foldl_pd_isSome_tracker ds { z with current_frame := z.current_frame + 1 } k h

theorem trigger_isSome_counted (z : custom_LineZone) (ds : List Detection) (k : Nat)
    (h : (z.already_counted k).isSome = true) :
    ((z.trigger ds).already_counted k).isSome = true :=
  foldl_pd_isSome_counted ds { z with current_frame := z.current_frame + 1 } k h

theorem trigger_isSome_seen (z : custom_LineZone) (ds : List Detection) (k : Nat)
    (h : (z.frame_last_seen k).isSome = true) :
    ((z.trigger ds).frame_last_seen k).isSome = true :=
  foldl_pd_isSome_seen ds { z with current_frame := z.current_frame + 1 } k h

/-!
## The degenerate (zero-length) line

With `start = end` the cross product is identically zero, so `is_in` returns
the canonical side `false` for every point; no side change can ever be
observed and the counters stay at zero forever.
-/

theorem is_in_degenerate (v : SvVector) (h : v.start = v.end_) (p : SvPoint) :
    v.is_in p = false := by
  unfold SvVector.is_in
  rw [← h]
  norm_num

theorem pdAction_degenerate (z : custom_LineZone) (d : Detection) (i : Nat)
    (hdeg : z.vector.start = z.vector.end_) (hsf : SidesFalse z) :
    z.pdAction d i = .skip ∨ z.pdAction d i = .create false := by
  unfold custom_LineZone.pdAction
  by_cases hv : z.is_within_line_segment (z.anchor d) 20 = true
  · cases hstate : z.tracker_state i with
    | none =>
      right
      simp [hv, hstate, is_in_degenerate z.vector hdeg]
    | some prev =>
      left
      simp [hv, hstate, is_in_degenerate z.vector hdeg, hsf i prev hstate]
  · left
    rw [Bool.not_eq_true] at hv
    simp [hv]

theorem pd_degenerate_step (z : custom_LineZone) (d : Detection)
    (hdeg : z.vector.start = z.vector.end_) (hsf : SidesFalse z) :
    (z.processDetection d).in_count = z.in_count
    ∧ (z.processDetection d).out_count = z.out_count
    ∧ SidesFalse (z.processDetection d) := by
  cases hid : d.tracker_id with
  | none => rw [pd_none z d hid]; exact ⟨rfl, rfl, hsf⟩
  | some i =>
    rw [pd_eq_applyAction z d i hid]
    rcases pdAction_degenerate z d i hdeg hsf with ha | ha <;> rw [ha]
    · exact ⟨rfl, rfl, hsf⟩
    · refine ⟨rfl, rfl, ?_⟩
      intro k s hk
      by_cases hki : k = i
      · subst hki
        simp only [custom_LineZone.applyAction, Function.update_same] at hk
        exact (Option.some_inj.mp hk).symm
      · rw [applyAction_tracker_state_other z i k _ hki] at hk
        exact hsf k s hk

theorem foldl_pd_degenerate (ds : List Detection) :
    ∀ z : custom_LineZone, z.vector.start = z.vector.end_ → SidesFalse z →
      (ds.foldl custom_LineZone.processDetection z).in_count = z.in_count
      ∧ (ds.foldl custom_LineZone.processDetection z).out_count = z.out_count
      ∧ SidesFalse (ds.foldl custom_LineZone.processDetection z) := by
  induction ds with
  | nil => intro z _ hsf; exact ⟨rfl, rfl, hsf⟩
  | cons d ds ih =>
    intro z hdeg hsf
    obtain ⟨h1, h2, h3⟩ := pd_degenerate_step z d hdeg hsf
    have hdeg' : (z.processDetection d).vector.start = (z.processDetection d).vector.end_ := by
      rw [pd_vector]; exact hdeg
    obtain ⟨g1, g2, g3⟩ := ih (z.processDetection d) hdeg' h3
    exact ⟨g1.trans h1, g2.trans h2, g3⟩

theorem trigger_degenerate (z : custom_LineZone) (ds : List Detection)
    (hdeg : z.vector.start = z.vector.end_) (hsf : SidesFalse z) :
    (z.trigger ds).in_count = z.in_count
    ∧ (z.trigger ds).out_count = z.out_count
    ∧ SidesFalse (z.trigger ds) := by
  unfold custom_LineZone.trigger
  exact foldl_pd_degenerate ds { z with current_frame := z.current_frame + 1 } hdeg
    (fun i s h => hsf i s h)

theorem run_degenerate (frames : List (List Detection)) :
    ∀ z : custom_LineZone, z.vector.start = z.vector.end_ → SidesFalse z →
      (z.run frames).in_count = z.in_count
      ∧ (z.run frames).out_count = z.out_count := by
  induction frames with
  | nil => intro z _ _; exact ⟨rfl, rfl⟩
  | cons f fs ih =>
    intro z hdeg hsf
    obtain ⟨h1, h2, h3⟩ := trigger_degenerate z f hdeg hsf
    have hdeg' : (z.trigger f).vector.start = (z.trigger f).vector.end_ := by
      rw [trigger_vector]; exact hdeg
    obtain ⟨g1, g2⟩ := ih (z.trigger f) hdeg' h3
    exact ⟨g1.trans h1, g2.trans h2⟩

/-!
## Single-frame, single-detection `trigger` characterisations
-/

theorem trigger_fresh (z : custom_LineZone) (d : Detection) (i : Nat)
    (hid : d.tracker_id = some i)
    (hv : z.is_within_line_segment (z.anchor d) 20 = true)
    (hfresh : z.tracker_state i = none) :
    z.trigger [d] =
      { z with
        current_frame := z.current_frame + 1
        tracker_state := Function.update z.tracker_state i
          (some (z.vector.is_in (z.anchor d)))
        already_counted := Function.update z.already_counted i (some false)
        frame_last_seen := Function.update z.frame_last_seen i
          (some (z.current_frame + 1)) } := by
  rw [trigger_singleton]
  exact pd_create _ d i hid hv hfresh

theorem trigger_skip_same (z : custom_LineZone) (d : Detection) (i : Nat) (s : Bool)
    (hid : d.tracker_id = some i)
    (hstate : z.tracker_state i = some s)
    (hside : z.vector.is_in (z.anchor d) = s) :
    z.trigger [d] = { z with current_frame := z.current_frame + 1 } := by
  rw [trigger_singleton]
  exact pd_same _ d i s hid hstate hside

theorem trigger_skip_suppressed (z : custom_LineZone) (d : Detection) (i : Nat)
    (s : Bool)
    (hid : d.tracker_id = some i)
    (hstate : z.tracker_state i = some s)
    (hside : z.vector.is_in (z.anchor d) ≠ s)
    (hc : (z.already_counted i).getD false = true)
    (hgap : ¬ (((z.current_frame + 1 : ℕ) : ℤ) - ((z.frame_last_seen i).getD 0 : ℤ)
        > z.grace_period)) :
    z.trigger [d] = { z with current_frame := z.current_frame + 1 } := by
  rw [trigger_singleton]
  exact pd_suppressed _ d i s hid hstate hside hc hgap

theorem trigger_crossing (z : custom_LineZone) (d : Detection) (i : Nat) (s : Bool)
    (hid : d.tracker_id = some i)
    (hv : z.is_within_line_segment (z.anchor d) 20 = true)
    (hstate : z.tracker_state i = some s)
    (hside : z.vector.is_in (z.anchor d) ≠ s)
    (hready : (z.already_counted i).getD false = false
      ∨ ((z.current_frame + 1 : ℕ) : ℤ) - ((z.frame_last_seen i).getD 0 : ℤ)
          > z.grace_period) :
    z.trigger [d] =
      { z with
        current_frame := z.current_frame + 1
        tracker_state := Function.update z.tracker_state i
          (some (z.vector.is_in (z.anchor d)))
        already_counted := Function.update z.already_counted i (some true)
        frame_last_seen := Function.update z.frame_last_seen i
          (some (z.current_frame + 1))
        in_count := if z.vector.is_in (z.anchor d) then z.in_count + 1 else z.in_count
        out_count := if z.vector.is_in (z.anchor d) then z.out_count
          else z.out_count + 1 } := by
  rw [trigger_singleton]
  exact pd_count _ d i s hid hv hstate hside hready

/-!
## The oscillation scenario (single count per episode)
-/

theorem run_one (z : custom_LineZone) (f : List Detection) :
    z.run [f] = z.trigger f := rfl

theorem run_append (z : custom_LineZone) (fs gs : List (List Detection)) :
    z.run (fs ++ gs) = (z.run fs).run gs := by
  unfold custom_LineZone.run
  rw [List.foldl_append]

theorem oscFrames_succ (dA dB : Detection) (n : Nat) :
    oscFrames dA dB (n + 1)
      = oscFrames dA dB n ++ [[if n % 2 = 0 then dA else dB]] := by
  unfold oscFrames
  rw [List.range_succ, List.map_append]
  rfl

theorem oscFrames_two (dA dB : Detection) :
    oscFrames dA dB 2 = [[dA], [dB]] := rfl

theorem osc_invariant (z : custom_LineZone) (dA dB : Detection) (i : Nat)
    (hA : dA.tracker_id = some i) (hB : dB.tracker_id = some i)
    (hvA : z.is_within_line_segment (z.anchor dA) 20 = true)
    (hvB : z.is_within_line_segment (z.anchor dB) 20 = true)
    (hside : z.vector.is_in (z.anchor dA) ≠ z.vector.is_in (z.anchor dB))
    (hfresh : z.tracker_state i = none) :
    ∀ m : Nat, ((m + 2 : ℕ) : ℤ) ≤ z.grace_period + 2 →
      z.run (oscFrames dA dB (m + 2)) =
        { z with
          current_frame := z.current_frame + (m + 2)
          tracker_state := Function.update z.tracker_state i
            (some (z.vector.is_in (z.anchor dB)))
          already_counted := Function.update z.already_counted i (some true)
          frame_last_seen := Function.update z.frame_last_seen i
            (some (z.current_frame + 2))
          in_count := if z.vector.is_in (z.anchor dB) then z.in_count + 1
            else z.in_count
          out_count := if z.vector.is_in (z.anchor dB) then z.out_count
            else z.out_count + 1 } := by
  intro m
  induction m with
  | zero =>
    intro _
    have e1 : z.run (oscFrames dA dB (0 + 2)) = (z.trigger [dA]).trigger [dB] := rfl
    rw [e1, trigger_fresh z dA i hA hvA hfresh]
    refine (trigger_crossing _ dB i (z.vector.is_in (z.anchor dA)) hB
      ?_ ?_ ?_ ?_).trans ?_
    · exact hvB
    · exact Function.update_same i (some (z.vector.is_in (z.anchor dA))) z.tracker_state
    · exact Ne.symm hside
    · exact Or.inl (by simp [Function.update_same])
    · norm_num [Function.update_idem, custom_LineZone.anchor]
  | succ m ih =>
    intro hle
    have hle' : ((m + 2 : ℕ) : ℤ) ≤ z.grace_period + 2 := by
      push_cast at hle ⊢
      omega
    have e2 : m + 1 + 2 = (m + 2) + 1 := by omega
    rw [e2, oscFrames_succ, run_append, ih hle', run_one]
    by_cases hp : (m + 2) % 2 = 0
    · rw [if_pos hp]
      refine (trigger_skip_suppressed _ dA i (z.vector.is_in (z.anchor dB)) hA
        ?_ ?_ ?_ ?_).trans ?_
      · exact Function.update_same i (some (z.vector.is_in (z.anchor dB))) z.tracker_state
      · exact hside
      · simp [Function.update_same]
      · simp only [Function.update_same, Option.getD_some]
        push_cast at hle ⊢
        omega
      · simp [custom_LineZone.mk.injEq]
        omega
    · rw [if_neg hp]
      refine (trigger_skip_same _ dB i (z.vector.is_in (z.anchor dB)) hB
        ?_ ?_).trans ?_
      · exact Function.update_same i (some (z.vector.is_in (z.anchor dB))) z.tracker_state
      · rfl
      · simp [custom_LineZone.mk.injEq]
        omega

/-!
## Concrete facts about the vertical-line counter `zV`

The line runs from (100,0) to (100,200); with margin 20 an anchor `(x, 100)`
is inside the extent iff `80 ≤ x ≤ 120`, and `is_in` holds iff `x > 100`.
-/

theorem anchor_detAt (i : Nat) (x : ℚ) :
    zV.anchor (detAt i x) = { x := x, y := 100 } := by
  simp [custom_LineZone.anchor, zV, custom_LineZone.init, detAt]

theorem valid90 (i : Nat) :
    zV.is_within_line_segment (zV.anchor (detAt i 90)) 20 = true := by
  rw [anchor_detAt i 90]
  simp [custom_LineZone.is_within_line_segment, zV, custom_LineZone.init]
  norm_num

theorem valid110 (i : Nat) :
    zV.is_within_line_segment (zV.anchor (detAt i 110)) 20 = true := by
  rw [anchor_detAt i 110]
  simp [custom_LineZone.is_within_line_segment, zV, custom_LineZone.init]
  norm_num

theorem invalid50 (i : Nat) :
    zV.is_within_line_segment (zV.anchor (detAt i 50)) 20 = false := by
  rw [anchor_detAt i 50]
  simp [custom_LineZone.is_within_line_segment, zV, custom_LineZone.init]
  norm_num

theorem side90 (i : Nat) : zV.vector.is_in (zV.anchor (detAt i 90)) = false := by
  rw [anchor_detAt i 90]
  simp [SvVector.is_in, zV, custom_LineZone.init]
  norm_num

theorem side110 (i : Nat) : zV.vector.is_in (zV.anchor (detAt i 110)) = true := by
  rw [anchor_detAt i 110]
  simp [SvVector.is_in, zV, custom_LineZone.init]
  norm_num

theorem side90_ne_true (i : Nat) :
    zV.vector.is_in (zV.anchor (detAt i 90)) ≠ true := by
  rw [side90 i]
  simp

theorem side110_ne_false (i : Nat) :
    zV.vector.is_in (zV.anchor (detAt i 110)) ≠ false := by
  rw [side110 i]
  simp

/-!
## The four-frame scenario for identity 3

Frame 1: sighting at x=90 (record created, `lastSeen = 1`).
Frame 2: same-side sighting at x=90 (bare `continue` — `lastSeen` stays 1).
Frame 3: crossing to x=110 (counted, `lastSeen = 3`).
Frame 4: crossing back to x=90 within grace (suppressed — `lastSeen` stays 3).
-/

theorem zS1_eq : zV.trigger [detAt 3 90] = zS1 := by
  rw [trigger_singleton,
    pd_create { zV with current_frame := zV.current_frame + 1 } (detAt 3 90) 3 rfl
      (valid90 3) rfl]
  norm_num [zS1, zV, custom_LineZone.init, SvVector.is_in, custom_LineZone.anchor,
    detAt, not_center]

theorem zS2_eq : zS1.trigger [detAt 3 90] = zS2 := by
  rw [trigger_singleton,
    pd_same { zS1 with current_frame := zS1.current_frame + 1 } (detAt 3 90) 3 false
      rfl (update_self zV.tracker_state 3 (some false)) (side90 3)]
  rfl

theorem zS3_eq : zS2.trigger [detAt 3 110] = zS3 := by
  rw [trigger_singleton,
    pd_count { zS2 with current_frame := zS2.current_frame + 1 } (detAt 3 110) 3 false
      rfl (valid110 3) (update_self zV.tracker_state 3 (some false))
      (side110_ne_false 3)
      (Or.inl (by norm_num [zS2, zS1, Function.update_same]))]
  norm_num [zS3, zS2, zS1, zV, custom_LineZone.init, SvVector.is_in,
    custom_LineZone.anchor, detAt, not_center]

theorem zS4_eq : zS3.trigger [detAt 3 90] = { zS3 with current_frame := 4 } := by
  rw [trigger_singleton,
    pd_suppressed { zS3 with current_frame := zS3.current_frame + 1 } (detAt 3 90) 3
      true rfl (update_self zS2.tracker_state 3 (some true))
      (side90_ne_true 3)
      (by norm_num [zS3, zS2, zS1, Function.update_same])
      (by norm_num [zS3, zS2, zS1, zV, custom_LineZone.init, Function.update_same])]
  rfl

/-!
## The two-identity opposite-crossing scenario and the duplicate-identity frame
-/

theorem zQ1_eq :
    ({ zV with current_frame := zV.current_frame + 1 } : custom_LineZone).processDetection
      (detAt 1 90) = zQ1 := by
  rw [pd_create { zV with current_frame := zV.current_frame + 1 } (detAt 1 90) 1 rfl
    (valid90 1) rfl]
  norm_num [zQ1, zV, custom_LineZone.init, SvVector.is_in, custom_LineZone.anchor,
    detAt, not_center]

theorem zQ2_eq : zV.trigger [detAt 1 90, detAt 2 110] = zQ2 := by
  rw [trigger_pair, zQ1_eq,
    pd_create zQ1 (detAt 2 110) 2 rfl (valid110 2)
      (by norm_num [zQ1, zV, custom_LineZone.init, Function.update])]
  norm_num [zQ2, zQ1, zV, custom_LineZone.init, SvVector.is_in,
    custom_LineZone.anchor, detAt, not_center]

theorem zQ3_eq :
    ({ zQ2 with current_frame := zQ2.current_frame + 1 } : custom_LineZone).processDetection
      (detAt 1 110) = zQ3 := by
  rw [pd_count { zQ2 with current_frame := zQ2.current_frame + 1 } (detAt 1 110) 1
    false rfl (valid110 1)
    (by norm_num [zQ2, zQ1, zV, custom_LineZone.init, Function.update])
    (side110_ne_false 1)
    (Or.inl (by norm_num [zQ2, zQ1, zV, custom_LineZone.init, Function.update]))]
  norm_num [zQ3, zQ2, zQ1, zV, custom_LineZone.init, SvVector.is_in,
    custom_LineZone.anchor, detAt, not_center]

theorem zQ4_eq : zQ2.trigger [detAt 1 110, detAt 2 90] = zQ4 := by
  rw [trigger_pair, zQ3_eq,
    pd_count zQ3 (detAt 2 90) 2 true rfl (valid90 2)
      (by norm_num [zQ3, zQ2, zQ1, zV, custom_LineZone.init, Function.update])
      (side90_ne_true 2)
      (Or.inl (by norm_num [zQ3, zQ2, zQ1, zV, custom_LineZone.init, Function.update]))]
  norm_num [zQ4, zQ3, zQ2, zQ1, zV, custom_LineZone.init, SvVector.is_in,
    custom_LineZone.anchor, detAt, not_center]

theorem zB1_eq :
    ({ zV with current_frame := zV.current_frame + 1 } : custom_LineZone).processDetection
      (detAt 7 90) = zB1 := by
  rw [pd_create { zV with current_frame := zV.current_frame + 1 } (detAt 7 90) 7 rfl
    (valid90 7) rfl]
  norm_num [zB1, zV, custom_LineZone.init, SvVector.is_in, custom_LineZone.anchor,
    detAt, not_center]

theorem zB2_eq :
    ({ zV with current_frame := zV.current_frame + 1 } : custom_LineZone).processDetection
      (detAt 7 110) = zB2 := by
  rw [pd_create { zV with current_frame := zV.current_frame + 1 } (detAt 7 110) 7 rfl
    (valid110 7) rfl]
  norm_num [zB2, zV, custom_LineZone.init, SvVector.is_in, custom_LineZone.anchor,
    detAt, not_center]

theorem dup_order1_in : (zV.trigger [detAt 7 90, detAt 7 110]).in_count = 1 := by
  rw [trigger_pair, zB1_eq,
    pd_count zB1 (detAt 7 110) 7 false rfl (valid110 7)
      (by norm_num [zB1, zV, custom_LineZone.init, Function.update])
      (side110_ne_false 7)
      (Or.inl (by norm_num [zB1, zV, custom_LineZone.init, Function.update]))]
  norm_num [zB1, zV, custom_LineZone.init, SvVector.is_in, custom_LineZone.anchor,
    detAt, not_center]

theorem dup_order2_in : (zV.trigger [detAt 7 110, detAt 7 90]).in_count = 0 := by
  rw [trigger_pair, zB2_eq,
    pd_count zB2 (detAt 7 90) 7 true rfl (valid90 7)
      (by norm_num [zB2, zV, custom_LineZone.init, Function.update])
      (side90_ne_true 7)
      (Or.inl (by norm_num [zB2, zV, custom_LineZone.init, Function.update]))]
  norm_num [zB2, zV, custom_LineZone.init, SvVector.is_in, custom_LineZone.anchor,
    detAt, not_center]

/-!
# Claim theorems
-/

/-- Claim C1 (the code lacks the required check): the spec demands that a
zero-length line (`start = end`) fail fast at construction with a
configuration error, but `custom_LineZone.__init__` performs no validation:
construction succeeds for every input, the degenerate side test returns the
canonical side `false` for every point, and consequently the counter silently
never counts anything on any run instead of erroring. -/
theorem degenerate_line_silently_accepted (config : Config) (name : String)
    (p q : SvPoint) (g : Int) (frames : List (List Detection)) :
    (custom_LineZone.init config name p p g).vector.is_in q = false
    ∧ ((custom_LineZone.init config name p p g).run frames).in_count = 0
    ∧ ((custom_LineZone.init config name p p g).run frames).out_count = 0 := by
  refine ⟨is_in_degenerate _ rfl q, ?_, ?_⟩
  · exact (run_degenerate frames (custom_LineZone.init config name p p g) rfl
      (fun i s h => by simp [custom_LineZone.init] at h)).1
  · exact (run_degenerate frames (custom_LineZone.init config name p p g) rfl
      (fun i s h => by simp [custom_LineZone.init] at h)).2

/-- Claim C2 (the code does not do what the claim says): a same-side
reappearance (frame 2 below) and a suppressed crossing (frame 4 below) are
bare `continue`s in the source and do NOT update `frame_last_seen` — after the
frame-2 sighting it still reads 1, and after the suppressed frame-4 crossing it
still reads 3, contradicting "updated every frame the identity reappears with a
valid anchor position". -/
theorem frame_last_seen_not_updated_on_skip :
    ((zV.trigger [detAt 3 90]).trigger [detAt 3 90]).current_frame = 2
    ∧ ((zV.trigger [detAt 3 90]).trigger [detAt 3 90]).frame_last_seen 3 = some 1
    ∧ ((zV.trigger [detAt 3 90]).trigger [detAt 3 90]).frame_last_seen 3 ≠ some 2
    ∧ ((((zV.trigger [detAt 3 90]).trigger [detAt 3 90]).trigger
        [detAt 3 110]).trigger [detAt 3 90]).current_frame = 4
    ∧ ((((zV.trigger [detAt 3 90]).trigger [detAt 3 90]).trigger
        [detAt 3 110]).trigger [detAt 3 90]).frame_last_seen 3 = some 3
    ∧ ((((zV.trigger [detAt 3 90]).trigger [detAt 3 90]).trigger
        [detAt 3 110]).trigger [detAt 3 90]).frame_last_seen 3 ≠ some 4 := by
  rw [zS1_eq, zS2_eq, zS3_eq, zS4_eq]
  refine ⟨rfl, ?_, ?_, rfl, ?_, ?_⟩ <;>
    simp [zS3, zS2, zS1, Function.update_same]

/-- Claim C3: an identity whose anchor oscillates across the line on
consecutive frames (one valid sighting per frame, side flipping every frame)
is counted at most once as long as every frame of the run lies within the
grace period of the counted crossing, i.e. while
`currentFrameIndex - lastSeenFrame ≤ gracePeriod`
(equivalently `n ≤ gracePeriod + 2` for a fresh identity counted at run
frame 2). -/
theorem oscillation_counted_at_most_once (z : custom_LineZone)
    (dA dB : Detection) (i n : Nat)
    (hA : dA.tracker_id = some i) (hB : dB.tracker_id = some i)
    (hvA : z.is_within_line_segment (z.anchor dA) 20 = true)
    (hvB : z.is_within_line_segment (z.anchor dB) 20 = true)
    (hside : z.vector.is_in (z.anchor dA) ≠ z.vector.is_in (z.anchor dB))
    (hfresh : z.tracker_state i = none)
    (hn : (n : ℤ) ≤ z.grace_period + 2) :
    (z.run (oscFrames dA dB n)).in_count + (z.run (oscFrames dA dB n)).out_count
      ≤ z.in_count + z.out_count + 1 := by
  cases n with
  | zero => exact Nat.le_succ _
  | succ n1 =>
    cases n1 with
    | zero =>
      have e : z.run (oscFrames dA dB 1) = z.trigger [dA] := rfl
      rw [e, trigger_fresh z dA i hA hvA hfresh]
      exact Nat.le_succ _
    | succ m =>
      have e : m + 1 + 1 = m + 2 := rfl
      rw [e, osc_invariant z dA dB i hA hB hvA hvB hside hfresh m
        (by push_cast at hn ⊢; omega)]
      by_cases hs : z.vector.is_in (z.anchor dB) = true <;> simp [hs] <;> omega

/-- Witness for C3: on the vertical line, identity 1 oscillating 90/110 for
5 frames with grace period 60 gains at most one count. -/
theorem oscillation_counted_at_most_once_witness :
    (zV.run (oscFrames (detAt 1 90) (detAt 1 110) 5)).in_count
      + (zV.run (oscFrames (detAt 1 90) (detAt 1 110) 5)).out_count
      ≤ zV.in_count + zV.out_count + 1 :=
  oscillation_counted_at_most_once zV (detAt 1 90) (detAt 1 110) 1 5 rfl rfl
    (valid90 1) (valid110 1)
    (by rw [side90 1, side110 1]; exact Bool.false_ne_true) rfl (by decide)

/-- Claim C4: for an already-counted identity with `lastSeenFrame = L`, a
side-changing valid sighting processed at current frame index exactly
`L + gracePeriod` is suppressed (the call changes nothing but the frame
counter), while one processed at `L + gracePeriod + 1` is counted (the two
counters gain exactly one increment). -/
theorem grace_period_boundary (z : custom_LineZone) (d : Detection) (i : Nat)
    (s : Bool) (L : ℕ)
    (hid : d.tracker_id = some i)
    (hv : z.is_within_line_segment (z.anchor d) 20 = true)
    (hstate : z.tracker_state i = some s)
    (hside : z.vector.is_in (z.anchor d) ≠ s)
    (hcnt : z.already_counted i = some true)
    (hseen : z.frame_last_seen i = some L) :
    (((z.current_frame + 1 : ℕ) : ℤ) - (L : ℤ) = z.grace_period →
      z.trigger [d] = { z with current_frame := z.current_frame + 1 })
    ∧ (((z.current_frame + 1 : ℕ) : ℤ) - (L : ℤ) = z.grace_period + 1 →
      (z.trigger [d]).in_count + (z.trigger [d]).out_count
        = z.in_count + z.out_count + 1) := by
  constructor
  · intro hG
    exact trigger_skip_suppressed z d i s hid hstate hside
      (by rw [hcnt]; rfl)
      (by rw [hseen]; simp only [Option.getD_some]; omega)
  · intro hG
    rw [trigger_crossing z d i s hid hv hstate hside
      (Or.inr (by rw [hseen]; simp only [Option.getD_some]; omega))]
    by_cases hs : z.vector.is_in (z.anchor d) = true <;> simp [hs] <;> omega

/-- Witness for C4: identity 1 was counted with `lastSeen = 3`; with grace 60 a
re-crossing at frame 63 is suppressed and one at frame 64 is counted. -/
theorem grace_period_boundary_witness :
    (zG.trigger [detAt 1 110] = { zG with current_frame := zG.current_frame + 1 })
    ∧ ((zG2.trigger [detAt 1 110]).in_count + (zG2.trigger [detAt 1 110]).out_count
        = zG2.in_count + zG2.out_count + 1) :=
  ⟨(grace_period_boundary zG (detAt 1 110) 1 false 3 rfl (valid110 1)
      (update_self zV.tracker_state 1 (some false))
      (side110_ne_false 1)
      (update_self zV.already_counted 1 (some true))
      (update_self zV.frame_last_seen 1 (some 3))).1 (by decide),
   (grace_period_boundary zG2 (detAt 1 110) 1 false 3 rfl (valid110 1)
      (update_self zV.tracker_state 1 (some false))
      (side110_ne_false 1)
      (update_self zV.already_counted 1 (some true))
      (update_self zV.frame_last_seen 1 (some 3))).2 (by decide)⟩

/-- Claim C5 (the code lacks the required check): the spec demands rejection of
a negative grace period at construction, but the constructor stores `-1`
silently and completes normally (margin is not even a constructor parameter:
`trigger` always uses the `is_within_line_segment` default of 20). -/
theorem negative_grace_period_accepted (config : Config) (name : String)
    (start end_ : SvPoint) :
    (custom_LineZone.init config name start end_ (-1)).grace_period = -1
    ∧ (custom_LineZone.init config name start end_ (-1)).in_count = 0
    ∧ (custom_LineZone.init config name start end_ (-1)).out_count = 0 :=
  ⟨rfl, rfl, rfl⟩

/-- Claim C6: across any single `trigger` call — and hence across any sequence
of calls — `in_count` and `out_count` never decrease. -/
theorem counts_monotone (z : custom_LineZone) (ds : List Detection) :
    z.in_count ≤ (z.trigger ds).in_count
    ∧ z.out_count ≤ (z.trigger ds).out_count := by
  unfold custom_LineZone.trigger
  exact ⟨foldl_pd_in_le ds { z with current_frame := z.current_frame + 1 },
    foldl_pd_out_le ds { z with current_frame := z.current_frame + 1 }⟩

/-- Claim C7: the first-ever valid sighting of an identity creates a record
with `side = currentSide`, `countedFlag = false`,
`lastSeenFrame = currentFrameIndex` and changes neither counter. -/
theorem first_sighting_creates_record_no_count (z : custom_LineZone)
    (d : Detection) (i : Nat)
    (hid : d.tracker_id = some i)
    (hv : z.is_within_line_segment (z.anchor d) 20 = true)
    (hfresh : z.tracker_state i = none) :
    (z.trigger [d]).in_count = z.in_count
    ∧ (z.trigger [d]).out_count = z.out_count
    ∧ (z.trigger [d]).tracker_state i = some (z.vector.is_in (z.anchor d))
    ∧ (z.trigger [d]).already_counted i = some false
    ∧ (z.trigger [d]).frame_last_seen i = some (z.current_frame + 1) := by
  rw [trigger_fresh z d i hid hv hfresh]
  exact ⟨rfl, rfl,
    update_self z.tracker_state i (some (z.vector.is_in (z.anchor d))),
    update_self z.already_counted i (some false),
    update_self z.frame_last_seen i (some (z.current_frame + 1))⟩

/-- Witness for C7: first sighting of identity 5 at x=90 on the vertical
line. -/
theorem first_sighting_creates_record_no_count_witness :
    (zV.trigger [detAt 5 90]).in_count = zV.in_count
    ∧ (zV.trigger [detAt 5 90]).out_count = zV.out_count
    ∧ (zV.trigger [detAt 5 90]).tracker_state 5
        = some (zV.vector.is_in (zV.anchor (detAt 5 90)))
    ∧ (zV.trigger [detAt 5 90]).already_counted 5 = some false
    ∧ (zV.trigger [detAt 5 90]).frame_last_seen 5 = some (zV.current_frame + 1) :=
  first_sighting_creates_record_no_count zV (detAt 5 90) 5 rfl (valid90 5) rfl

/-- Counterexample for C8 as frozen: when the SAME identity appears twice in
one frame (here identity 7 at x=90 and x=110), the two processing orders are a
permutation of each other yet produce different counters: the order
90-then-110 yields `in_count = 1`, the order 110-then-90 yields
`in_count = 0`. -/
theorem frame_order_counterexample :
    [detAt 7 90, detAt 7 110].Perm [detAt 7 110, detAt 7 90]
    ∧ (zV.trigger [detAt 7 90, detAt 7 110]).in_count = 1
    ∧ (zV.trigger [detAt 7 110, detAt 7 90]).in_count = 0 :=
  ⟨List.Perm.swap (detAt 7 110) (detAt 7 90) [], dup_order1_in, dup_order2_in⟩

/-- Claim C8 (amended: provided each tracked identity appears at most once in
the frame): permuting the objects of a frame does not change the resulting
state, and two distinct identities crossing in opposite directions in the same
frame each increment their respective counter. -/
theorem frame_order_independent :
    (∀ (z : custom_LineZone) (ds1 ds2 : List Detection),
      ds1.Pairwise DistinctIds → ds1.Perm ds2 → z.trigger ds1 = z.trigger ds2)
    ∧ (zV.trigger [detAt 1 90, detAt 2 110]).in_count = 0
    ∧ (zV.trigger [detAt 1 90, detAt 2 110]).out_count = 0
    ∧ ((zV.trigger [detAt 1 90, detAt 2 110]).trigger
        [detAt 1 110, detAt 2 90]).in_count = 1
    ∧ ((zV.trigger [detAt 1 90, detAt 2 110]).trigger
        [detAt 1 110, detAt 2 90]).out_count = 1 := by
  refine ⟨?_, ?_, ?_, ?_, ?_⟩
  · intro z ds1 ds2 hdist hperm
    unfold custom_LineZone.trigger
    exact foldl_pd_perm hperm hdist _
  · rw [zQ2_eq]
    rfl
  · rw [zQ2_eq]
    rfl
  · rw [zQ2_eq, zQ4_eq]
    rfl
  · rw [zQ2_eq, zQ4_eq]
    rfl

/-- Witness for C8: swapping the two distinct-identity detections of a frame
leaves the state unchanged. -/
theorem frame_order_independent_witness :
    zV.trigger [detAt 1 90, detAt 2 110] = zV.trigger [detAt 2 110, detAt 1 90] :=
  frame_order_independent.1 zV [detAt 1 90, detAt 2 110] [detAt 2 110, detAt 1 90]
    (by
      refine List.Pairwise.cons ?_ (List.pairwise_singleton _ _)
      intro d hd
      rw [List.mem_singleton] at hd
      subst hd
      intro a b h1 h2
      simp [detAt] at h1 h2
      omega)
    (List.Perm.swap (detAt 2 110) (detAt 1 90) [])

/-- Claim C9: a detection whose anchor falls outside the margin-expanded
bounding extent of the line is skipped: processing it is the identity on the
state, and a whole call with just that detection changes only the frame
counter — regardless of which side of the line the anchor is on. -/
theorem outside_extent_no_effect (z : custom_LineZone) (d : Detection)
    (hv : z.is_within_line_segment (z.anchor d) 20 = false) :
    z.processDetection d = z
    ∧ z.trigger [d] = { z with current_frame := z.current_frame + 1 } := by
  constructor
  · cases hid : d.tracker_id with
    | none => exact pd_none z d hid
    | some i => exact pd_invalid z d i hid hv
  · rw [trigger_singleton]
    cases hid : d.tracker_id with
    | none => exact pd_none _ d hid
    | some i => exact pd_invalid _ d i hid hv

/-- Witness for C9: identity 2 at x=50 is outside the extent [80,120]x[-20,220]
of the vertical line and is ignored. -/
theorem outside_extent_no_effect_witness :
    zV.processDetection (detAt 2 50) = zV
    ∧ zV.trigger [detAt 2 50] = { zV with current_frame := zV.current_frame + 1 } :=
  outside_extent_no_effect zV (detAt 2 50) (invalid50 2)

/-- Claim C10: starting from construction, after every sequence of `trigger`
calls the three per-identity dicts have exactly the same key set; moreover an
identity present in any of them is never removed by a later call. -/
theorem maps_aligned_and_persistent :
    (∀ (config : Config) (name : String) (start end_ : SvPoint) (g : Int)
        (frames : List (List Detection)),
      Aligned ((custom_LineZone.init config name start end_ g).run frames))
    ∧ (∀ (z : custom_LineZone) (ds : List Detection) (k : Nat),
        ((z.tracker_state k).isSome = true →
          ((z.trigger ds).tracker_state k).isSome = true)
        ∧ ((z.already_counted k).isSome = true →
          ((z.trigger ds).already_counted k).isSome = true)
        ∧ ((z.frame_last_seen k).isSome = true →
          ((z.trigger ds).frame_last_seen k).isSome = true)) := by
  constructor
  · intro config name start end_ g frames
    exact run_aligned frames _ (init_aligned config name start end_ g)
  · intro z ds k
    exact ⟨trigger_isSome_tracker z ds k, trigger_isSome_counted z ds k,
      trigger_isSome_seen z ds k⟩

/-- Witness for C10: alignment after a run from construction, and persistence
of identity 1 of `zG` across one more call. -/
theorem maps_aligned_and_persistent_witness :
    Aligned (zV.run [[detAt 1 90]])
    ∧ ((zG.trigger [detAt 1 110]).tracker_state 1).isSome = true
    ∧ ((zG.trigger [detAt 1 110]).already_counted 1).isSome = true
    ∧ ((zG.trigger [detAt 1 110]).frame_last_seen 1).isSome = true :=
  ⟨maps_aligned_and_persistent.1 { anchor_point := "bottom_center" } "L"
      { x := 100, y := 0 } { x := 100, y := 200 } 60 [[detAt 1 90]],
   (maps_aligned_and_persistent.2 zG [detAt 1 110] 1).1 rfl,
   (maps_aligned_and_persistent.2 zG [detAt 1 110] 1).2.1 rfl,
   (maps_aligned_and_persistent.2 zG [detAt 1 110] 1).2.2 rfl⟩
